import Mathlib

/-!
Verification of the timingmarket vault-snapshot pipeline.

The definitions below are a shallow embedding of the JavaScript sources:
numbers are embedded as rationals, JS `null`/`undefined` as `Option`,
`Math.round` as `round` (both are floor of x + 1/2), and the Postgres
snapshot table as a list of rows.
-/

namespace TimingMarket

/-! ### Composite scorer (computeSignalScores, src/unnamed/part_000)

Analytics input: `apr`, `fundingRate` and the four trailing sub-scores may
be null/undefined.  The JS reads `analytics.apr || 0` and
`analytics.fundingRate || 0` (falsy coerced to 0) but
`analytics.tvlScore ?? 50` etc. (nullish coalesced to 50). -/

structure Analytics where
  currentDrawdown : ℚ
  apr : Option ℚ
  fundingRate : Option ℚ
  tvlScore : Option ℚ
  momentumScore : Option ℚ
  volScore : Option ℚ
  oiScore : Option ℚ
deriving Repr, DecidableEq

/-- Drawdown tier table on `|currentDrawdown| * 100`. -/
def ddScoreOf (currentDrawdown : ℚ) : ℚ :=
  let ddPct := |currentDrawdown| * 100
  if ddPct < 1/10 then 5
  else if ddPct < 1/2 then 15
  else if ddPct < 1 then 25
  else if ddPct < 2 then 40
  else if ddPct < 3 then 55
  else if ddPct < 5 then 70
  else if ddPct < 7 then 85
  else if ddPct < 9 then 92
  else 98

/-- APR tier table on `(analytics.apr || 0) * 100`. -/
def aprScoreOf (apr : Option ℚ) : ℚ :=
  let aprPct := (apr.getD 0) * 100
  if aprPct > 40 then 15
  else if aprPct > 25 then 30
  else if aprPct > 15 then 50
  else if aprPct > 8 then 65
  else if aprPct > 3 then 75
  else 90

/-- Funding tier table on `(analytics.fundingRate || 0) * 10000` basis points. -/
def fundingScoreOf (fundingRate : Option ℚ) : ℚ :=
  let fundingBps := (fundingRate.getD 0) * 10000
  if fundingBps > 5 then 90
  else if fundingBps > 2 then 75
  else if fundingBps > 1/2 then 60
  else if fundingBps > -(1/2) then 45
  else if fundingBps > -2 then 25
  else 15

/-- The weighted rounding of the seven sub-scores; `Math.round` is
floor of x + 1/2, exactly Mathlib's `round` on ℚ. -/
def compositeOf (dd tvl momentum vol apr funding oi : ℚ) : ℤ :=
  round (dd * (25/100) + tvl * (15/100) + momentum * (15/100) + vol * (15/100)
    + apr * (5/100) + funding * (15/100) + oi * (10/100))

structure SignalScores where
  composite : ℤ
  ddScore : ℚ
  tvlScore : ℚ
  momentumScore : ℚ
  volScore : ℚ
  aprScore : ℚ
  fundingScore : ℚ
  oiScore : ℚ
deriving Repr, DecidableEq

/-- Embedding of `computeSignalScores` (src/unnamed/part_000, third file). -/
def computeSignalScores (a : Analytics) : SignalScores :=
  let ddScore := ddScoreOf a.currentDrawdown
  let tvlScore := a.tvlScore.getD 50
  let momentumScore := a.momentumScore.getD 50
  let volScore := a.volScore.getD 50
  let aprScore := aprScoreOf a.apr
  let fundingScore := fundingScoreOf a.fundingRate
  let oiScore := a.oiScore.getD 50
  { composite := compositeOf ddScore tvlScore momentumScore volScore aprScore
      fundingScore oiScore
    ddScore := ddScore
    tvlScore := tvlScore
    momentumScore := momentumScore
    volScore := volScore
    aprScore := aprScore
    fundingScore := fundingScore
    oiScore := oiScore }

/-- APR sub-score of the seed backfill pass (src/unnamed/part_000, first
file, lines 318-327): unlike `computeSignalScores`, a NULL apr is mapped
to the neutral score 50 there. -/
def seedAprScoreOf (apr : Option ℚ) : ℚ :=
  match apr with
  | none => 50
  | some a =>
    let aprPct := a * 100
    if aprPct > 40 then 15
    else if aprPct > 25 then 30
    else if aprPct > 15 then 50
    else if aprPct > 8 then 65
    else if aprPct > 3 then 75
    else 90

/-! ### Snapshot rows and the trailing-signal calculator
(computeTrailingSignals, src/unnamed/part_000)

A `Row` is a row of the `snapshots` table: timestamps are milliseconds
since the UTC epoch, nullable columns are `Option`. -/

structure Row where
  collected_at : ℕ
  nav : ℚ
  pnl : Option ℚ
  apr : Option ℚ
  vlm : Option ℚ
  allow_deposits : Bool
  nav_ath : ℚ
  drawdown_pct : ℚ
  max_drawdown : ℚ
  composite_score : Option ℤ
  dd_score : Option ℤ
  tvl_score : Option ℤ
  momentum_score : Option ℤ
  vol_score : Option ℤ
  apr_score : Option ℤ
  funding_rate : Option ℚ
  open_interest : Option ℚ
  volume_24h : Option ℚ
  funding_score : Option ℤ
  oi_score : Option ℤ
deriving Repr, DecidableEq

/-- Milliseconds in 7 days, the trailing-window cutoff constant. -/
def ms7d : ℕ := 7 * 24 * 3600 * 1000

/-- TVL momentum tier table on the 7-day percent change `tvl7`. -/
def tvlScoreOf (tvl7 : ℚ) : ℚ :=
  if tvl7 > 3 then 10
  else if tvl7 > 1 then 25
  else if tvl7 > 0 then 40
  else if tvl7 > -1 then 55
  else if tvl7 > -3 then 70
  else if tvl7 > -5 then 85
  else 95

/-- Return momentum tier table on the average of the last 7 returns. -/
def momentumScoreOf (recent7Avg : ℚ) : ℚ :=
  if recent7Avg > 3/1000 then 10
  else if recent7Avg > 1/1000 then 25
  else if recent7Avg > 0 then 40
  else if recent7Avg > -(1/1000) then 55
  else if recent7Avg > -(3/1000) then 70
  else if recent7Avg > -(1/100) then 85
  else 95

/-- Per-step fractional returns of a NAV series: for each consecutive pair
`(prev, curr)` with `prev > 0` the value `(curr - prev) / prev`. -/
def navReturns : List ℚ → List ℚ
  | [] => []
  | [_] => []
  | a :: b :: rest => (if 0 < a then [(b - a) / a] else []) ++ navReturns (b :: rest)

/-- Average of a list, 0 when empty (the JS `length > 0 ? sum/length : 0`). -/
def listAvg (l : List ℚ) : ℚ := if l.length = 0 then 0 else l.sum / l.length

/-- Sample variance with denominator `n - 1` when `n > 1`, else 0. -/
def sampleVariance (l : List ℚ) : ℚ :=
  if 1 < l.length then
    (l.map (fun v => (v - listAvg l) ^ 2)).sum / ((l.length : ℚ) - 1)
  else 0

/-- Volatility regime tiers.  The JS compares `volTrend =
(sqrt variance - sqrt firstVar) / sqrt firstVar` against ±0.1/±0.3 and
`sqrt variance * sqrt 365 * 100` against 10; since `Real.sqrt` is monotone
and both variances are nonnegative, each comparison is expressed
equivalently on the variances themselves (squaring both sides):
`volTrend < c ↔ 100 * variance < (1+c)^2 * 100 * firstVar` and
`annualized > 10 ↔ 36500 * variance > 1`.  When `priorVol = 0`
(i.e. `firstVar = 0`) the JS sets `volTrend = 0`, which lands in the
`|volTrend| < 0.1` tier, score 50. -/
def volScoreOf (variance firstVar : ℚ) : ℚ :=
  if 0 < firstVar then
    if 100 * variance < 49 * firstVar ∧ 1 < 36500 * variance then 90
    else if 100 * variance < 81 * firstVar then 70
    else if 81 * firstVar < 100 * variance ∧ 100 * variance < 121 * firstVar then 50
    else if 100 * variance < 169 * firstVar then 35
    else 15
  else 50

/-- Open-interest trend tier table on the fractional change `oiChange`. -/
def oiChangeScore (oiChange : ℚ) : ℚ :=
  if oiChange > 1/10 then 90
  else if oiChange > 3/100 then 70
  else if oiChange > -(3/100) then 50
  else if oiChange > -(1/20) then 30
  else 15

/-- The JS `list.length > 0 ? list[0].nav : d`. -/
def headNavOr (d : ℚ) : List Row → ℚ
  | [] => d
  | s :: _ => s.nav

/-- The JS `list.length > 0 ? parseFloat(list[0].open_interest) : d`. -/
def headOIOr (d : ℚ) : List Row → ℚ
  | [] => d
  | s :: _ => s.open_interest.getD 0

/-- Result of `computeTrailingSignals`.  The insufficient-data early return
of the JS is the object `{tvlScore: 50, momentumScore: 50, volScore: 50}`
with no `oiScore` key at all, embedded as `oiScore = none`. -/
structure TrailingSignals where
  tvlScore : ℚ
  momentumScore : ℚ
  volScore : ℚ
  oiScore : Option ℚ
deriving Repr, DecidableEq

/-- Embedding of `computeTrailingSignals(snapshots, currentNav)`.  The JS
body reads the wall clock (`const now = Date.now()`); that clock value is
the explicit first argument here. -/
def computeTrailingSignals (now : ℕ) (snapshots : List Row) (currentNav : ℚ) :
    TrailingSignals :=
  if snapshots.length < 2 then
    { tvlScore := 50, momentumScore := 50, volScore := 50, oiScore := none }
  else
    let snap7d := snapshots.filter (fun s => now - ms7d ≤ s.collected_at)
    let nav7dAgo := headNavOr currentNav snap7d
    let tvl7 := if 0 < nav7dAgo then ((currentNav - nav7dAgo) / nav7dAgo) * 100 else 0
    let recent := snapshots.drop (snapshots.length - 30)
    let returns := navReturns (recent.map Row.nav)
    let recent7Avg := listAvg (returns.drop (returns.length - 7))
    let variance := sampleVariance returns
    let firstVar := sampleVariance (returns.take (returns.length / 2))
    let snapsWithOI := snapshots.filter (fun s => match s.open_interest with
      | some v => decide (0 < v)
      | none => false)
    let oiScore : ℚ :=
      if 2 ≤ snapsWithOI.length then
        let latestOI := (snapsWithOI.getLast?.bind Row.open_interest).getD 0
        let snap7dOI := snapsWithOI.filter (fun s => now - ms7d ≤ s.collected_at)
        let oiAgo := headOIOr latestOI snap7dOI
        if 0 < oiAgo then oiChangeScore ((latestOI - oiAgo) / oiAgo) else 50
      else 50
    { tvlScore := tvlScoreOf tvl7
      momentumScore := momentumScoreOf recent7Avg
      volScore := volScoreOf variance firstVar
      oiScore := some oiScore }

/-- A plain snapshot row with only a time and a NAV, all nullable columns
NULL, used as concrete test data. -/
def basicRow (t : ℕ) (nav : ℚ) : Row :=
  { collected_at := t, nav := nav, pnl := none, apr := none, vlm := none,
    allow_deposits := true, nav_ath := nav, drawdown_pct := 0, max_drawdown := 0,
    composite_score := none, dd_score := none, tvl_score := none,
    momentum_score := none, vol_score := none, apr_score := none,
    funding_rate := none, open_interest := none, volume_24h := none,
    funding_score := none, oi_score := none }

/-- Shift a row's collection time forward by δ milliseconds. -/
def shiftRow (δ : ℕ) (r : Row) : Row := { r with collected_at := r.collected_at + δ }

/-! ### Time-series normalizer / seed ATH pass
(computeWithATH in src/unnamed/part_000; parseVaultData runs the same
recurrence on the allTime NAV history) -/

structure ATHPoint where
  time : ℕ
  nav : ℚ
  pnl : Option ℚ
  apr : Option ℚ
  ath : ℚ
  dd : ℚ
  maxDD : ℚ
deriving Repr, DecidableEq

/-- PnL lookup by exact timestamp, the JS `pnlMap.get(point.time) ?? null`. -/
def lookupPnl (pnlMap : List (ℕ × ℚ)) (t : ℕ) : Option ℚ :=
  (pnlMap.find? (fun q => q.1 == t)).map Prod.snd

/-- The `if (point.value > ath) ath = point.value` update. -/
def athStep (a v : ℚ) : ℚ := if v > a then v else a

/-- The `ath > 0 ? (point.value - ath) / ath : 0` drawdown. -/
def ddStep (a' v : ℚ) : ℚ := if 0 < a' then (v - a') / a' else 0

/-- The `if (dd < maxDD) maxDD = dd` update. -/
def mddStep (m dd : ℚ) : ℚ := if dd < m then dd else m

/-- The ATH pass with explicit running state (ath, maxDD). -/
def computeWithATHAux (pnlMap : List (ℕ × ℚ)) :
    ℚ → ℚ → List (ℕ × ℚ) → List ATHPoint
  | _, _, [] => []
  | ath, maxDD, p :: rest =>
    let ath' := athStep ath p.2
    let dd := ddStep ath' p.2
    let maxDD' := mddStep maxDD dd
    { time := p.1, nav := p.2, pnl := lookupPnl pnlMap p.1, apr := none,
      ath := ath', dd := dd, maxDD := maxDD' }
      :: computeWithATHAux pnlMap ath' maxDD' rest

/-- Embedding of `computeWithATH(navHistory, pnlMap)`: the state starts at
`ath = 0`, `maxDD = 0`. -/
def computeWithATH (navHistory pnlMap : List (ℕ × ℚ)) : List ATHPoint :=
  computeWithATHAux pnlMap 0 0 navHistory

def dfltPoint : ATHPoint :=
  { time := 0, nav := 0, pnl := none, apr := none, ath := 0, dd := 0, maxDD := 0 }

/-! ### Snapshot store write path (insertSnapshot, src/unnamed/part_001)

The snapshot object built by the collect handler; optional JS values are
`Option`.  `insertSnapshot` interpolates `data.vlm || null` and
`data.<score> || null` (falsy-to-NULL) and `data.collected_at || now`;
the INSERT column list contains only the 15 original columns, so
`funding_rate`, `open_interest`, `volume_24h`, `funding_score` and
`oi_score` are never written and remain NULL in the stored row. -/

structure SnapshotData where
  collected_at : Option ℕ
  nav : ℚ
  pnl : Option ℚ
  apr : Option ℚ
  vlm : Option ℚ
  allow_deposits : Bool
  nav_ath : ℚ
  drawdown_pct : ℚ
  max_drawdown : ℚ
  composite_score : Option ℤ
  dd_score : Option ℤ
  tvl_score : Option ℤ
  momentum_score : Option ℤ
  vol_score : Option ℤ
  apr_score : Option ℤ
  funding_rate : Option ℚ
  open_interest : Option ℚ
  volume_24h : Option ℚ
  funding_score : Option ℤ
  oi_score : Option ℤ
deriving Repr, DecidableEq

/-- JS `x || null` on an optional numeric: null stays null, 0 becomes null. -/
def falsyToNullQ : Option ℚ → Option ℚ
  | some q => if q = 0 then none else some q
  | none => none

/-- JS `x || null` on an optional integer score. -/
def falsyToNullZ : Option ℤ → Option ℤ
  | some z => if z = 0 then none else some z
  | none => none

/-- The row the INSERT statement of `insertSnapshot` produces from a
snapshot object (`now` embeds `new Date().toISOString()`, the default for
a falsy `collected_at`). -/
def rowOfData (now : ℕ) (d : SnapshotData) : Row :=
  { collected_at := match d.collected_at with
      | some t => if t = 0 then now else t
      | none => now
    nav := d.nav
    pnl := d.pnl
    apr := d.apr
    vlm := falsyToNullQ d.vlm
    allow_deposits := d.allow_deposits
    nav_ath := d.nav_ath
    drawdown_pct := d.drawdown_pct
    max_drawdown := d.max_drawdown
    composite_score := falsyToNullZ d.composite_score
    dd_score := falsyToNullZ d.dd_score
    tvl_score := falsyToNullZ d.tvl_score
    momentum_score := falsyToNullZ d.momentum_score
    vol_score := falsyToNullZ d.vol_score
    apr_score := falsyToNullZ d.apr_score
    funding_rate := none
    open_interest := none
    volume_24h := none
    funding_score := none
    oi_score := none }

/-- Milliseconds per hour; `date_trunc('hour', collected_at AT TIME ZONE
'UTC')` on an epoch-milliseconds timestamp is floor division by it. -/
def msPerHour : ℕ := 3600 * 1000

def hourKey (t : ℕ) : ℕ := t / msPerHour

/-- Embedding of `insertSnapshot(sql, data)`: `INSERT ... ON CONFLICT
(date_trunc('hour', ...)) DO NOTHING RETURNING id` against the unique
hourly index; returns the new store and `result[0] || null`. -/
def insertSnapshot (now : ℕ) (store : List Row) (d : SnapshotData) :
    List Row × Option Row :=
  let r := rowOfData now d
  if store.any (fun s => hourKey s.collected_at = hourKey r.collected_at) then
    (store, none)
  else
    (store ++ [r], some r)

/-- The collect handler's response to an insert result:
`res.status(200).json({ success: true, ..., skipped: !inserted })`. -/
structure CollectResponse where
  status : ℕ
  success : Bool
  skipped : Bool
deriving Repr, DecidableEq

def collectResponse (inserted : Option Row) : CollectResponse :=
  { status := 200, success := true, skipped := inserted.isNone }

/-! ### Snapshot store read path (getSnapshots, src/unnamed/part_001) -/

inductive RangeParam
  | h24 | d7 | d30 | d90 | y1 | all | invalid
deriving Repr, DecidableEq

inductive Resolution
  | auto | hourly | daily
deriving Repr, DecidableEq

def msPerDay : ℕ := 24 * 3600 * 1000

/-- The `switch (range)` cutoff: `now − duration`, none for `all` and for
the default case. -/
def rangeCutoff (now : ℕ) : RangeParam → Option ℕ
  | .h24 => some (now - 24 * 3600 * 1000)
  | .d7 => some (now - 7 * msPerDay)
  | .d30 => some (now - 30 * msPerDay)
  | .d90 => some (now - 90 * msPerDay)
  | .y1 => some (now - 365 * msPerDay)
  | .all => none
  | .invalid => none

/-- `auto` resolves to hourly for 24h/7d, daily otherwise. -/
def resolveResolution (range : RangeParam) : Resolution → Resolution
  | .auto => match range with
    | .h24 => .hourly
    | .d7 => .hourly
    | _ => .daily
  | r => r

/-- UTC calendar-day key: `date_trunc('day', collected_at)` on an
epoch-milliseconds timestamp. -/
def dayKey (t : ℕ) : ℕ := t / msPerDay

/-- SQL `AVG` over a nullable column: NULLs are ignored; NULL if all
values are NULL. -/
def optAvg (l : List (Option ℚ)) : Option ℚ :=
  let vs := l.filterMap id
  if vs.length = 0 then none else some (vs.sum / vs.length)

/-- SQL `AVG` over a nullable integer column (exact numeric average). -/
def optAvgZ (l : List (Option ℤ)) : Option ℚ :=
  let vs := l.filterMap id
  if vs.length = 0 then none else some (((vs.sum : ℤ) : ℚ) / vs.length)

/-- Postgres `numeric → integer` cast: round half away from zero. -/
def pgCastInt (q : ℚ) : ℤ := if 0 ≤ q then ⌊q + 1/2⌋ else -⌊-q + 1/2⌋

/-- SQL `MAX` of a nonempty numeric group (0 on the never-used empty group). -/
def qMax : List ℚ → ℚ
  | [] => 0
  | a :: l => l.foldl max a

/-- SQL `MIN` of a nonempty numeric group. -/
def qMin : List ℚ → ℚ
  | [] => 0
  | a :: l => l.foldl min a

/-- Shape of a row returned by the daily-aggregation SELECT (it has only
the 15 aggregated columns). -/
structure DailyRow where
  collected_at : ℕ
  nav : ℚ
  pnl : Option ℚ
  apr : Option ℚ
  vlm : Option ℚ
  allow_deposits : Bool
  nav_ath : ℚ
  drawdown_pct : ℚ
  max_drawdown : ℚ
  composite_score : Option ℤ
  dd_score : Option ℤ
  tvl_score : Option ℤ
  momentum_score : Option ℤ
  vol_score : Option ℤ
  apr_score : Option ℤ
deriving Repr, DecidableEq

/-- The aggregated output row for day key `k` over its group `g`:
numeric columns averaged, `bool_and(allow_deposits)`, `MAX(nav_ath)`,
`MIN(max_drawdown)`, score averages cast to integer. -/
def aggDay (k : ℕ) (g : List Row) : DailyRow :=
  { collected_at := k * msPerDay
    nav := listAvg (g.map Row.nav)
    pnl := optAvg (g.map Row.pnl)
    apr := optAvg (g.map Row.apr)
    vlm := optAvg (g.map Row.vlm)
    allow_deposits := g.all Row.allow_deposits
    nav_ath := qMax (g.map Row.nav_ath)
    drawdown_pct := listAvg (g.map Row.drawdown_pct)
    max_drawdown := qMin (g.map Row.max_drawdown)
    composite_score := (optAvgZ (g.map Row.composite_score)).map pgCastInt
    dd_score := (optAvgZ (g.map Row.dd_score)).map pgCastInt
    tvl_score := (optAvgZ (g.map Row.tvl_score)).map pgCastInt
    momentum_score := (optAvgZ (g.map Row.momentum_score)).map pgCastInt
    vol_score := (optAvgZ (g.map Row.vol_score)).map pgCastInt
    apr_score := (optAvgZ (g.map Row.apr_score)).map pgCastInt }

/-- `GROUP BY date_trunc('day', collected_at)`: one output row per
distinct day key among the input rows. -/
def dailyAgg (rows : List Row) : List DailyRow :=
  ((rows.map (fun r => dayKey r.collected_at)).dedup).map
    (fun k => aggDay k (rows.filter (fun r => dayKey r.collected_at = k)))

inductive SnapshotsResult
  | raw (rows : List Row)
  | daily (rows : List DailyRow)
deriving Repr, DecidableEq

def SnapshotsResult.count : SnapshotsResult → ℕ
  | raw l => l.length
  | daily l => l.length

/-- Embedding of `getSnapshots(sql, range, resolution)`: the four SQL
branches (daily aggregated with/without WHERE cutoff, raw with/without). -/
def getSnapshots (now : ℕ) (store : List Row) (range : RangeParam)
    (resolution : Resolution) : SnapshotsResult :=
  match resolveResolution range resolution, rangeCutoff now range with
  | .daily, some c => .daily (dailyAgg (store.filter (fun r => c ≤ r.collected_at)))
  | .daily, none => .daily (dailyAgg store)
  | _, some c => .raw (store.filter (fun r => c ≤ r.collected_at))
  | _, none => .raw store

/-- A 100-NAV row carrying only a composite score, for the daily
aggregation counterexample. -/
def scoredRow (t : ℕ) (c : ℤ) : Row := { basicRow t 100 with composite_score := some c }

/-- A 98-NAV row in drawdown (ATH 102), third row of the daily
aggregation example. -/
def ddRow : Row := { basicRow 7200000 98 with
  nav_ath := 102
  drawdown_pct := -2/51
  max_drawdown := -2/51 }

lemma round_bounds {w : ℚ} (h0 : 0 ≤ w) (h100 : w ≤ 100) :
    0 ≤ round w ∧ round w ≤ 100 := by
  rw [round_eq]
  constructor
  · exact Int.floor_nonneg.mpr (by linarith)
  · have h : w + 1/2 < ((101:ℤ):ℚ) := by push_cast; linarith
    have := Int.floor_lt.mpr h
    omega

/-- C2: the composite scorer returns `round(0.25*dd + 0.15*tvl + 0.15*momentum
+ 0.15*vol + 0.05*apr + 0.15*funding + 0.10*oi)`; the seven fixed weights sum
to exactly 1; for sub-scores in [0,100] the composite is an integer in
[0,100]; for dd=5 and all other sub-scores 50 the composite equals 39. -/
theorem composite_weighted_sum_formula :
    ((25:ℚ)/100 + 15/100 + 15/100 + 15/100 + 5/100 + 15/100 + 10/100 = 1)
    ∧ (∀ dd tvl momentum vol apr funding oi : ℚ,
        0 ≤ dd → dd ≤ 100 → 0 ≤ tvl → tvl ≤ 100 →
        0 ≤ momentum → momentum ≤ 100 → 0 ≤ vol → vol ≤ 100 →
        0 ≤ apr → apr ≤ 100 → 0 ≤ funding → funding ≤ 100 →
        0 ≤ oi → oi ≤ 100 →
        compositeOf dd tvl momentum vol apr funding oi
          = round (dd * (25/100) + tvl * (15/100) + momentum * (15/100)
              + vol * (15/100) + apr * (5/100) + funding * (15/100) + oi * (10/100))
        ∧ 0 ≤ compositeOf dd tvl momentum vol apr funding oi
        ∧ compositeOf dd tvl momentum vol apr funding oi ≤ 100)
    ∧ compositeOf 5 50 50 50 50 50 50 = 39 := by
  refine ⟨by norm_num, ?_, ?_⟩
  · intro dd tvl momentum vol apr funding oi h1 h2 h3 h4 h5 h6 h7 h8 h9 h10 h11 h12 h13 h14
    refine ⟨rfl, ?_⟩
    have hb := round_bounds (w := dd * (25/100) + tvl * (15/100) + momentum * (15/100)
        + vol * (15/100) + apr * (5/100) + funding * (15/100) + oi * (10/100))
      (by linarith) (by linarith)
    exact ⟨hb.1, hb.2⟩
  · have harg : (5:ℚ) * (25/100) + 50 * (15/100) + 50 * (15/100) + 50 * (15/100)
        + 50 * (5/100) + 50 * (15/100) + 50 * (10/100) + 1/2 = 157/4 := by norm_num
    unfold compositeOf
    rw [round_eq, harg]
    exact Int.floor_eq_iff.mpr (by constructor <;> norm_num)

theorem composite_weighted_sum_formula_witness :
    0 ≤ compositeOf 5 50 50 50 50 50 50 ∧ compositeOf 5 50 50 50 50 50 50 ≤ 100 := by
  have h := composite_weighted_sum_formula.2.1 5 50 50 50 50 50 50
    (by norm_num) (by norm_num) (by norm_num) (by norm_num) (by norm_num) (by norm_num)
    (by norm_num) (by norm_num) (by norm_num) (by norm_num) (by norm_num) (by norm_num)
    (by norm_num) (by norm_num)
  exact ⟨h.2.1, h.2.2⟩

/-- C7 counterexample: on an analytics input whose apr and fundingRate are
null, `computeSignalScores` does not use the neutral sub-score 50: a null
apr is coerced to 0 (`analytics.apr || 0`) and scores 90, and a null funding
rate is coerced to 0 and scores 45. -/
theorem null_apr_funding_not_neutral :
    (computeSignalScores ⟨0, none, none, some 50, some 50, some 50, some 50⟩).aprScore = 90
    ∧ (computeSignalScores ⟨0, none, none, some 50, some 50, some 50, some 50⟩).fundingScore = 45
    ∧ ¬ ((computeSignalScores
          ⟨0, none, none, some 50, some 50, some 50, some 50⟩).aprScore = 50
        ∧ (computeSignalScores
          ⟨0, none, none, some 50, some 50, some 50, some 50⟩).fundingScore = 50) := by
  refine ⟨?_, ?_, ?_⟩ <;> norm_num [computeSignalScores, aprScoreOf, fundingScoreOf]

/-- C7 amended: the four trailing sub-scores default to the neutral 50 when
their computing component lacked data (nullish coalescing `?? 50`), and the
seed backfill maps a NULL apr to the neutral 50; but `computeSignalScores`
coerces a null apr to 0 (scoring 90) and a null fundingRate to 0
(scoring 45). -/
theorem missing_data_default_scores :
    (∀ a : Analytics, a.tvlScore = none → (computeSignalScores a).tvlScore = 50)
    ∧ (∀ a : Analytics, a.momentumScore = none → (computeSignalScores a).momentumScore = 50)
    ∧ (∀ a : Analytics, a.volScore = none → (computeSignalScores a).volScore = 50)
    ∧ (∀ a : Analytics, a.oiScore = none → (computeSignalScores a).oiScore = 50)
    ∧ (∀ a : Analytics, a.apr = none → (computeSignalScores a).aprScore = 90)
    ∧ (∀ a : Analytics, a.fundingRate = none → (computeSignalScores a).fundingScore = 45)
    ∧ seedAprScoreOf none = 50 := by
  refine ⟨?_, ?_, ?_, ?_, ?_, ?_, rfl⟩ <;> intro a h <;>
    simp [computeSignalScores, aprScoreOf, fundingScoreOf, h] <;> norm_num

theorem missing_data_default_scores_witness :
    (computeSignalScores ⟨0, none, none, none, none, none, none⟩).tvlScore = 50
    ∧ (computeSignalScores ⟨0, none, none, none, none, none, none⟩).aprScore = 90 :=
  ⟨missing_data_default_scores.1 ⟨0, none, none, none, none, none, none⟩ rfl,
   missing_data_default_scores.2.2.2.2.1 ⟨0, none, none, none, none, none, none⟩ rfl⟩

/-- C3 counterexample: invoked with exactly 1 history point, the
trailing-signal calculator returns an object with no `oiScore` key at all
(embedded as `none`), not the claimed `oiScore: 50`. -/
theorem one_point_history_omits_oi_score :
    (computeTrailingSignals 0 [basicRow 0 100] 100).oiScore = none
    ∧ (computeTrailingSignals 0 [basicRow 0 100] 100).oiScore ≠ some 50 := by
  have h : computeTrailingSignals 0 [basicRow 0 100] 100
      = { tvlScore := 50, momentumScore := 50, volScore := 50, oiScore := none } := by
    unfold computeTrailingSignals
    norm_num
  rw [h]
  simp

/-- C3 amended: with fewer than 2 history points the trailing-signal
calculator returns tvlScore = momentumScore = volScore = 50 and omits the
open-interest score entirely (`oiScore` is absent/undefined, not 50; the
downstream composite scorer treats the absent value as 50 via `?? 50`). -/
theorem insufficient_history_neutral_signals (now : ℕ) (snapshots : List Row)
    (nav : ℚ) (h : snapshots.length < 2) :
    computeTrailingSignals now snapshots nav
      = { tvlScore := 50, momentumScore := 50, volScore := 50, oiScore := none } := by
  unfold computeTrailingSignals
  rw [if_pos h]

theorem insufficient_history_neutral_signals_witness :
    computeTrailingSignals 42 [basicRow 7 3] 9
      = { tvlScore := 50, momentumScore := 50, volScore := 50, oiScore := none } :=
  insufficient_history_neutral_signals 42 [basicRow 7 3] 9 (by norm_num)

/-- C8 counterexample: two invocations of the trailing-signal calculator
with identical history and identical currentNav but different wall-clock
times return different sub-scores: the 7-day cutoff `Date.now() - 7d`
moves, changing which snapshot is "7 days ago". -/
theorem trailing_signals_depend_on_wall_clock :
    (computeTrailingSignals 3600000
      [basicRow 0 100, basicRow 3600000 200] 200).tvlScore = 10
    ∧ (computeTrailingSignals 1000000000000
      [basicRow 0 100, basicRow 3600000 200] 200).tvlScore = 55
    ∧ computeTrailingSignals 3600000 [basicRow 0 100, basicRow 3600000 200] 200
      ≠ computeTrailingSignals 1000000000000 [basicRow 0 100, basicRow 3600000 200] 200 := by
  have h1 : (computeTrailingSignals 3600000
      [basicRow 0 100, basicRow 3600000 200] 200).tvlScore = 10 := by
    unfold computeTrailingSignals
    norm_num [basicRow, ms7d, List.filter, tvlScoreOf, headNavOr]
  have h2 : (computeTrailingSignals 1000000000000
      [basicRow 0 100, basicRow 3600000 200] 200).tvlScore = 55 := by
    unfold computeTrailingSignals
    norm_num [basicRow, ms7d, List.filter, tvlScoreOf, headNavOr]
  refine ⟨h1, h2, fun h => ?_⟩
  have := congrArg TrailingSignals.tvlScore h
  rw [h1, h2] at this
  norm_num at this

lemma filter_cutoff_shift (δ now c : ℕ) (l : List Row) :
    (l.map (shiftRow δ)).filter (fun s => (now + δ) - c ≤ s.collected_at)
      = (l.filter (fun s => now - c ≤ s.collected_at)).map (shiftRow δ) := by
  rw [List.filter_map]
  refine congrArg _ (List.filter_congr ?_)
  intro s _
  simp only [Function.comp_apply, shiftRow, decide_eq_decide]
  omega

lemma filter_oi_shift (δ : ℕ) (l : List Row) :
    (l.map (shiftRow δ)).filter (fun s => match s.open_interest with
        | some v => decide (0 < v)
        | none => false)
      = (l.filter (fun s => match s.open_interest with
        | some v => decide (0 < v)
        | none => false)).map (shiftRow δ) := by
  rw [List.filter_map]
  refine congrArg _ (List.filter_congr ?_)
  intro s _
  rfl

lemma drop_map_shift (δ n : ℕ) (l : List Row) :
    (l.map (shiftRow δ)).drop n = (l.drop n).map (shiftRow δ) :=
  (List.map_drop (shiftRow δ) l n).symm

lemma map_nav_shift (δ : ℕ) (l : List Row) :
    (l.map (shiftRow δ)).map Row.nav = l.map Row.nav := by
  rw [List.map_map]
  rfl

lemma headNavOr_shift (δ : ℕ) (d : ℚ) (l : List Row) :
    headNavOr d (l.map (shiftRow δ)) = headNavOr d l := by
  cases l <;> rfl

lemma headOIOr_shift (δ : ℕ) (d : ℚ) (l : List Row) :
    headOIOr d (l.map (shiftRow δ)) = headOIOr d l := by
  cases l <;> rfl

lemma getLast_oi_shift (δ : ℕ) (l : List Row) :
    (l.map (shiftRow δ)).getLast?.bind Row.open_interest
      = l.getLast?.bind Row.open_interest := by
  rw [List.getLast?_map]
  cases l.getLast? <;> rfl

/-- C8 amended: the trailing-signal calculator is a pure, deterministic
function of (orderedSnapshotHistory, currentNav, wall-clock time); only the
ages of the snapshots relative to the clock matter: translating every
timestamp and the clock by the same δ leaves every sub-score unchanged. -/
theorem trailing_signals_translation_invariant (δ now : ℕ) (snapshots : List Row)
    (nav : ℚ) :
    computeTrailingSignals (now + δ) (snapshots.map (shiftRow δ)) nav
      = computeTrailingSignals now snapshots nav := by
  unfold computeTrailingSignals
  rw [List.length_map]
  by_cases h : snapshots.length < 2
  · rw [if_pos h, if_pos h]
  · rw [if_neg h, if_neg h]
    simp only [filter_cutoff_shift, filter_oi_shift, drop_map_shift, map_nav_shift,
      headNavOr_shift, headOIOr_shift, getLast_oi_shift, List.length_map]

lemma athStep_pos {a v : ℚ} (ha : 0 ≤ a) (hv : 0 < v) : 0 < athStep a v := by
  unfold athStep
  split
  · exact hv
  · have h2 : 0 ≤ a := ha
    linarith

lemma le_athStep_left (a v : ℚ) : a ≤ athStep a v := by
  unfold athStep
  split <;> linarith

lemma le_athStep_right (a v : ℚ) : v ≤ athStep a v := by
  unfold athStep
  split <;> linarith

lemma athStep_cases (a v : ℚ) : athStep a v = a ∨ athStep a v = v := by
  unfold athStep
  split <;> [right; left] <;> rfl

lemma ddStep_eq {a' : ℚ} (v : ℚ) (h : 0 < a') : ddStep a' v = (v - a') / a' :=
  if_pos h

lemma ddStep_nonpos {a' v : ℚ} (h : 0 < a') (hv : v ≤ a') : ddStep a' v ≤ 0 := by
  rw [ddStep_eq v h]
  exact div_nonpos_of_nonpos_of_nonneg (by linarith) (le_of_lt h)

lemma mddStep_le_left (m dd : ℚ) : mddStep m dd ≤ m := by
  unfold mddStep
  split <;> linarith

lemma mddStep_le_right (m dd : ℚ) : mddStep m dd ≤ dd := by
  unfold mddStep
  split <;> linarith

lemma mddStep_cases (m dd : ℚ) : mddStep m dd = m ∨ mddStep m dd = dd := by
  unfold mddStep
  split <;> [right; left] <;> rfl

lemma computeWithATHAux_length (pm : List (ℕ × ℚ)) :
    ∀ (l : List (ℕ × ℚ)) (a m : ℚ),
      (computeWithATHAux pm a m l).length = l.length := by
  intro l
  induction l with
  | nil => intro a m; rfl
  | cons p rest ih =>
    intro a m
    simp only [computeWithATHAux, List.length_cons, ih]

lemma computeWithATHAux_getD_zero (pm : List (ℕ × ℚ)) (a m : ℚ)
    (p : ℕ × ℚ) (l : List (ℕ × ℚ)) :
    (computeWithATHAux pm a m (p :: l)).getD 0 dfltPoint
      = { time := p.1, nav := p.2, pnl := lookupPnl pm p.1, apr := none,
          ath := athStep a p.2, dd := ddStep (athStep a p.2) p.2,
          maxDD := mddStep m (ddStep (athStep a p.2) p.2) } := rfl

lemma computeWithATHAux_getD_succ (pm : List (ℕ × ℚ)) (a m : ℚ)
    (p : ℕ × ℚ) (l : List (ℕ × ℚ)) (i : ℕ) :
    (computeWithATHAux pm a m (p :: l)).getD (i + 1) dfltPoint
      = (computeWithATHAux pm (athStep a p.2)
          (mddStep m (ddStep (athStep a p.2) p.2)) l).getD i dfltPoint := rfl

/-- Invariants of the ATH pass starting from state `(a, m)` with
`0 ≤ a` and `m ≤ 0`, over a positive NAV series: pointwise, the output
keeps the input NAV, its `ath` is an upper bound of `a` and of every NAV
seen so far and is attained by `a` or by one of them, its `dd` is the
drawdown formula and is nonpositive, and its `maxDD` is a lower bound of
`m` and of every `dd` so far and is attained by `m` or by one of them. -/
lemma computeWithATHAux_spec (pm : List (ℕ × ℚ)) :
    ∀ (l : List (ℕ × ℚ)) (a m : ℚ), (∀ p ∈ l, 0 < p.2) → 0 ≤ a → m ≤ 0 →
    ∀ i, i < l.length →
      ((computeWithATHAux pm a m l).getD i dfltPoint).nav = (l.getD i (0, 0)).2
      ∧ a ≤ ((computeWithATHAux pm a m l).getD i dfltPoint).ath
      ∧ (∀ j, j ≤ i →
          (l.getD j (0, 0)).2 ≤ ((computeWithATHAux pm a m l).getD i dfltPoint).ath)
      ∧ (((computeWithATHAux pm a m l).getD i dfltPoint).ath = a
         ∨ ∃ j, j ≤ i ∧ ((computeWithATHAux pm a m l).getD i dfltPoint).ath
            = (l.getD j (0, 0)).2)
      ∧ 0 < ((computeWithATHAux pm a m l).getD i dfltPoint).ath
      ∧ ((computeWithATHAux pm a m l).getD i dfltPoint).dd
          = (((computeWithATHAux pm a m l).getD i dfltPoint).nav
             - ((computeWithATHAux pm a m l).getD i dfltPoint).ath)
            / ((computeWithATHAux pm a m l).getD i dfltPoint).ath
      ∧ ((computeWithATHAux pm a m l).getD i dfltPoint).dd ≤ 0
      ∧ ((computeWithATHAux pm a m l).getD i dfltPoint).maxDD ≤ m
      ∧ (∀ j, j ≤ i → ((computeWithATHAux pm a m l).getD i dfltPoint).maxDD
            ≤ ((computeWithATHAux pm a m l).getD j dfltPoint).dd)
      ∧ (((computeWithATHAux pm a m l).getD i dfltPoint).maxDD = m
         ∨ ∃ j, j ≤ i ∧ ((computeWithATHAux pm a m l).getD i dfltPoint).maxDD
            = ((computeWithATHAux pm a m l).getD j dfltPoint).dd) := by
  intro l
  induction l with
  | nil =>
    intro a m hpos ha hm i hi
    exact absurd hi (Nat.not_lt_zero i)
  | cons p rest ih =>
    intro a m hpos ha hm i hi
    have hp : 0 < p.2 := hpos p (List.mem_cons_self p rest)
    have hrest : ∀ q ∈ rest, 0 < q.2 := fun q hq => hpos q (List.mem_cons_of_mem _ hq)
    have ha' : 0 < athStep a p.2 := athStep_pos ha hp
    have hnavle : p.2 ≤ athStep a p.2 := le_athStep_right a p.2
    have hddf : ddStep (athStep a p.2) p.2 = (p.2 - athStep a p.2) / athStep a p.2 :=
      ddStep_eq p.2 ha'
    have hddle : ddStep (athStep a p.2) p.2 ≤ 0 := ddStep_nonpos ha' hnavle
    have hm'le : mddStep m (ddStep (athStep a p.2) p.2) ≤ m := mddStep_le_left _ _
    have hm'dd : mddStep m (ddStep (athStep a p.2) p.2) ≤ ddStep (athStep a p.2) p.2 :=
      mddStep_le_right _ _
    have hm'0 : mddStep m (ddStep (athStep a p.2) p.2) ≤ 0 := le_trans hm'le hm
    cases i with
    | zero =>
      rw [computeWithATHAux_getD_zero]
      refine ⟨rfl, le_athStep_left a p.2, ?_, ?_, ha', hddf, hddle, hm'le, ?_, ?_⟩
      · intro j hj
        rw [Nat.le_zero.mp hj]
        exact hnavle
      · rcases athStep_cases a p.2 with h | h
        · exact Or.inl h
        · exact Or.inr ⟨0, le_refl 0, h⟩
      · intro j hj
        rw [Nat.le_zero.mp hj, computeWithATHAux_getD_zero]
        exact hm'dd
      · rcases mddStep_cases m (ddStep (athStep a p.2) p.2) with h | h
        · exact Or.inl h
        · exact Or.inr ⟨0, le_refl 0, by rw [computeWithATHAux_getD_zero]; exact h⟩
    | succ i' =>
      have hi' : i' < rest.length := by
        simpa using Nat.lt_of_succ_lt_succ (by simpa using hi)
      have IH := ih (athStep a p.2) (mddStep m (ddStep (athStep a p.2) p.2))
        hrest (le_of_lt ha') hm'0 i' hi'
      rw [computeWithATHAux_getD_succ]
      obtain ⟨IH1, IH2, IH3, IH4, IH5, IH6, IH7, IH8, IH9, IH10⟩ := IH
      refine ⟨?_, le_trans (le_athStep_left a p.2) IH2, ?_, ?_, IH5, IH6, IH7,
        le_trans IH8 hm'le, ?_, ?_⟩
      · rw [IH1]
        rfl
      · intro j hj
        cases j with
        | zero =>
          rw [List.getD_cons_zero]
          exact le_trans hnavle (le_trans IH2 (le_refl _))
        | succ j' =>
          rw [List.getD_cons_succ]
          exact IH3 j' (Nat.le_of_succ_le_succ hj)
      · rcases IH4 with h | ⟨j', hj', h⟩
        · rcases athStep_cases a p.2 with h2 | h2
          · exact Or.inl (h.trans h2)
          · exact Or.inr ⟨0, Nat.zero_le _, by rw [List.getD_cons_zero]; exact h.trans h2⟩
        · exact Or.inr ⟨j' + 1, Nat.succ_le_succ hj', by rw [List.getD_cons_succ]; exact h⟩
      · intro j hj
        cases j with
        | zero =>
          rw [computeWithATHAux_getD_zero]
          exact le_trans IH8 hm'dd
        | succ j' =>
          rw [computeWithATHAux_getD_succ]
          exact IH9 j' (Nat.le_of_succ_le_succ hj)
      · rcases IH10 with h | ⟨j', hj', h⟩
        · rcases mddStep_cases m (ddStep (athStep a p.2) p.2) with h2 | h2
          · exact Or.inl (h.trans h2)
          · refine Or.inr ⟨0, Nat.zero_le _, ?_⟩
            rw [computeWithATHAux_getD_zero]
            exact h.trans h2
        · refine Or.inr ⟨j' + 1, Nat.succ_le_succ hj', ?_⟩
          rw [computeWithATHAux_getD_succ]
          exact h

lemma computeWithATHAux_step (pm : List (ℕ × ℚ)) :
    ∀ (l : List (ℕ × ℚ)) (a m : ℚ), (∀ p ∈ l, 0 < p.2) → 0 ≤ a → m ≤ 0 →
    ∀ i, i + 1 < l.length →
      ((computeWithATHAux pm a m l).getD i dfltPoint).ath
        ≤ ((computeWithATHAux pm a m l).getD (i + 1) dfltPoint).ath
      ∧ ((computeWithATHAux pm a m l).getD (i + 1) dfltPoint).maxDD
        ≤ ((computeWithATHAux pm a m l).getD i dfltPoint).maxDD := by
  intro l
  induction l with
  | nil => intro a m _ _ _ i hi; exact absurd hi (Nat.not_lt_zero _)
  | cons p rest ih =>
    intro a m hpos ha hm i hi
    have hp : 0 < p.2 := hpos p (List.mem_cons_self p rest)
    have hrest : ∀ q ∈ rest, 0 < q.2 := fun q hq => hpos q (List.mem_cons_of_mem _ hq)
    have ha' : 0 < athStep a p.2 := athStep_pos ha hp
    have hm'0 : mddStep m (ddStep (athStep a p.2) p.2) ≤ 0 :=
      le_trans (mddStep_le_left _ _) hm
    cases i with
    | zero =>
      have hr : 0 < rest.length := by simpa using hi
      have hs := computeWithATHAux_spec pm rest (athStep a p.2)
        (mddStep m (ddStep (athStep a p.2) p.2)) hrest (le_of_lt ha') hm'0 0 hr
      rw [computeWithATHAux_getD_succ, computeWithATHAux_getD_zero]
      exact ⟨hs.2.1, hs.2.2.2.2.2.2.2.1⟩
    | succ i' =>
      have hi' : i' + 1 < rest.length := by simpa using hi
      simp only [computeWithATHAux_getD_succ]
      exact ih (athStep a p.2) (mddStep m (ddStep (athStep a p.2) p.2)) hrest
        (le_of_lt ha') hm'0 i' hi'

lemma chain_mono_le {f : ℕ → ℚ} {n : ℕ}
    (hstep : ∀ k, k + 1 < n → f k ≤ f (k + 1)) :
    ∀ i j, i ≤ j → j < n → f i ≤ f j := by
  intro i j
  induction j with
  | zero =>
    intro hij _
    rw [Nat.le_zero.mp hij]
  | succ j ihj =>
    intro hij hj
    by_cases h : i = j + 1
    · rw [h]
    · have hij' : i ≤ j := Nat.lt_succ_iff.mp (lt_of_le_of_ne hij h)
      exact le_trans (ihj hij' (Nat.lt_of_succ_lt hj)) (hstep j hj)

lemma chain_anti_le {f : ℕ → ℚ} {n : ℕ}
    (hstep : ∀ k, k + 1 < n → f (k + 1) ≤ f k) :
    ∀ i j, i ≤ j → j < n → f j ≤ f i := by
  intro i j
  induction j with
  | zero =>
    intro hij _
    rw [Nat.le_zero.mp hij]
  | succ j ihj =>
    intro hij hj
    by_cases h : i = j + 1
    · rw [h]
    · have hij' : i ≤ j := Nat.lt_succ_iff.mp (lt_of_le_of_ne hij h)
      exact le_trans (hstep j hj) (ihj hij' (Nat.lt_of_succ_lt hj))

/-- C1: over any positive chronological NAV series, the ATH pass keeps each
input NAV; `navAth[i]` is an upper bound of `nav[0..i]` attained by one of
them (i.e. `navAth[i] = max(nav[0..i])`) and is monotonically
non-decreasing; `drawdownPct[i] = (nav[i] - navAth[i]) / navAth[i] ≤ 0`;
`maxDrawdown[i]` is a lower bound of `drawdownPct[0..i]` attained by one of
them (i.e. `= min(drawdownPct[0..i])`) and is monotonically non-increasing.
NAV `[100,110,90,95]` yields ATH `[100,110,110,110]`, drawdowns
`[0, 0, -2/11, -3/22]` (which print as 0, 0, -0.1818, -0.1364 at four
decimals) and running max drawdown `[0, 0, -2/11, -2/11]`. -/
theorem navAth_drawdown_running_extrema :
    (∀ (navHistory pnlMap : List (ℕ × ℚ)), (∀ p ∈ navHistory, 0 < p.2) →
      (computeWithATH navHistory pnlMap).length = navHistory.length
      ∧ (∀ i, i < navHistory.length →
          ((computeWithATH navHistory pnlMap).getD i dfltPoint).nav
            = (navHistory.getD i (0, 0)).2
          ∧ (∀ j, j ≤ i → (navHistory.getD j (0, 0)).2
              ≤ ((computeWithATH navHistory pnlMap).getD i dfltPoint).ath)
          ∧ (∃ j, j ≤ i ∧ ((computeWithATH navHistory pnlMap).getD i dfltPoint).ath
              = (navHistory.getD j (0, 0)).2)
          ∧ ((computeWithATH navHistory pnlMap).getD i dfltPoint).dd
              = (((computeWithATH navHistory pnlMap).getD i dfltPoint).nav
                 - ((computeWithATH navHistory pnlMap).getD i dfltPoint).ath)
                / ((computeWithATH navHistory pnlMap).getD i dfltPoint).ath
          ∧ ((computeWithATH navHistory pnlMap).getD i dfltPoint).dd ≤ 0
          ∧ (∀ j, j ≤ i → ((computeWithATH navHistory pnlMap).getD i dfltPoint).maxDD
              ≤ ((computeWithATH navHistory pnlMap).getD j dfltPoint).dd)
          ∧ (∃ j, j ≤ i ∧ ((computeWithATH navHistory pnlMap).getD i dfltPoint).maxDD
              = ((computeWithATH navHistory pnlMap).getD j dfltPoint).dd))
      ∧ (∀ i j, i ≤ j → j < navHistory.length →
          ((computeWithATH navHistory pnlMap).getD i dfltPoint).ath
            ≤ ((computeWithATH navHistory pnlMap).getD j dfltPoint).ath
          ∧ ((computeWithATH navHistory pnlMap).getD j dfltPoint).maxDD
            ≤ ((computeWithATH navHistory pnlMap).getD i dfltPoint).maxDD))
    ∧ (computeWithATH [(0, 100), (1, 110), (2, 90), (3, 95)] []).map ATHPoint.ath
        = [100, 110, 110, 110]
    ∧ (computeWithATH [(0, 100), (1, 110), (2, 90), (3, 95)] []).map ATHPoint.dd
        = [0, 0, -2/11, -3/22]
    ∧ (computeWithATH [(0, 100), (1, 110), (2, 90), (3, 95)] []).map ATHPoint.maxDD
        = [0, 0, -2/11, -2/11]
    ∧ round ((-2/11 : ℚ) * 10000) = -1818
    ∧ round ((-3/22 : ℚ) * 10000) = -1364 := by
  refine ⟨?_, ?_, ?_, ?_, ?_, ?_⟩
  · intro nav pm hpos
    unfold computeWithATH
    refine ⟨computeWithATHAux_length pm nav 0 0, ?_, ?_⟩
    · intro i hi
      obtain ⟨h1, h2, h3, h4, h5, h6, h7, h8, h9, h10⟩ :=
        computeWithATHAux_spec pm nav 0 0 hpos (le_refl 0) (le_refl 0) i hi
      refine ⟨h1, h3, ?_, h6, h7, h9, ?_⟩
      · rcases h4 with h | h
        · exact absurd (h ▸ h5) (lt_irrefl 0)
        · exact h
      · rcases h10 with h | h
        · refine ⟨0, Nat.zero_le i, ?_⟩
          have h0 : 0 < nav.length := Nat.lt_of_le_of_lt (Nat.zero_le i) hi
          obtain ⟨g1, g2, g3, g4, g5, g6, g7, g8, g9, g10⟩ :=
            computeWithATHAux_spec pm nav 0 0 hpos (le_refl 0) (le_refl 0) 0 h0
          have hath0 : ((computeWithATHAux pm 0 0 nav).getD 0 dfltPoint).ath
              = (nav.getD 0 (0, 0)).2 := by
            rcases g4 with g | ⟨j, hj, g⟩
            · exact absurd (g ▸ g5) (lt_irrefl 0)
            · rw [Nat.le_zero.mp hj] at g
              exact g
          have hdd0 : ((computeWithATHAux pm 0 0 nav).getD 0 dfltPoint).dd = 0 := by
            rw [g6, g1, hath0, sub_self, zero_div]
          rw [h, hdd0]
        · exact h
    · intro i j hij hj
      constructor
      · exact chain_mono_le
          (f := fun k => ((computeWithATHAux pm 0 0 nav).getD k dfltPoint).ath)
          (n := nav.length)
          (fun k hk => (computeWithATHAux_step pm nav 0 0 hpos (le_refl 0)
            (le_refl 0) k hk).1) i j hij hj
      · exact chain_anti_le
          (f := fun k => ((computeWithATHAux pm 0 0 nav).getD k dfltPoint).maxDD)
          (n := nav.length)
          (fun k hk => (computeWithATHAux_step pm nav 0 0 hpos (le_refl 0)
            (le_refl 0) k hk).2) i j hij hj
  · norm_num [computeWithATH, computeWithATHAux, athStep, ddStep, mddStep, lookupPnl]
  · norm_num [computeWithATH, computeWithATHAux, athStep, ddStep, mddStep, lookupPnl]
  · norm_num [computeWithATH, computeWithATHAux, athStep, ddStep, mddStep, lookupPnl]
  · have h : ((-2 : ℚ)/11) * 10000 + 1/2 = -39989/22 := by norm_num
    rw [round_eq, h]
    exact Int.floor_eq_iff.mpr (by constructor <;> norm_num)
  · have h : ((-3 : ℚ)/22) * 10000 + 1/2 = -29989/22 := by norm_num
    rw [round_eq, h]
    exact Int.floor_eq_iff.mpr (by constructor <;> norm_num)

theorem navAth_drawdown_running_extrema_witness :
    (computeWithATH [(0, 100), (1, 110), (2, 90), (3, 95)] []).length = 4
    ∧ ((computeWithATH [(0, 100), (1, 110), (2, 90), (3, 95)] []).getD 2 dfltPoint).dd
      ≤ 0 := by
  have h := navAth_drawdown_running_extrema.1 [(0, 100), (1, 110), (2, 90), (3, 95)] []
    (by norm_num)
  exact ⟨h.1.trans rfl, (h.2.1 2 (by norm_num)).2.2.2.2.1⟩

/-- C4: writing two snapshots whose timestamps truncate to the same UTC
hour into a store with that hour not yet populated stores exactly one row
for that hour; the second write leaves the store unchanged and returns
null ("nothing inserted") rather than an error, and the collect endpoint
reports it as skipped with a 200 success response. -/
theorem insert_same_hour_idempotent (now₁ now₂ : ℕ) (store : List Row)
    (d₁ d₂ : SnapshotData)
    (hsame : hourKey (rowOfData now₁ d₁).collected_at
      = hourKey (rowOfData now₂ d₂).collected_at)
    (hfresh : ∀ s ∈ store,
      hourKey s.collected_at ≠ hourKey (rowOfData now₁ d₁).collected_at) :
    (insertSnapshot now₁ store d₁).2 = some (rowOfData now₁ d₁)
    ∧ (insertSnapshot now₂ (insertSnapshot now₁ store d₁).1 d₂).2 = none
    ∧ (insertSnapshot now₂ (insertSnapshot now₁ store d₁).1 d₂).1
      = (insertSnapshot now₁ store d₁).1
    ∧ ((insertSnapshot now₂ (insertSnapshot now₁ store d₁).1 d₂).1.filter
        (fun s => hourKey s.collected_at = hourKey (rowOfData now₁ d₁).collected_at)).length
      = 1
    ∧ collectResponse (insertSnapshot now₂ (insertSnapshot now₁ store d₁).1 d₂).2
      = { status := 200, success := true, skipped := true } := by
  have hnone : store.any
      (fun s => hourKey s.collected_at = hourKey (rowOfData now₁ d₁).collected_at)
      = false := by
    rw [List.any_eq_false]
    intro s hs
    simpa using hfresh s hs
  have h1 : insertSnapshot now₁ store d₁ = (store ++ [rowOfData now₁ d₁],
      some (rowOfData now₁ d₁)) := by
    unfold insertSnapshot
    rw [if_neg (by rw [hnone]; simp)]
  have hmem : (store ++ [rowOfData now₁ d₁]).any
      (fun s => hourKey s.collected_at = hourKey (rowOfData now₂ d₂).collected_at)
      = true := by
    rw [List.any_eq_true]
    exact ⟨rowOfData now₁ d₁, by simp, by simpa using hsame⟩
  have h2 : insertSnapshot now₂ (store ++ [rowOfData now₁ d₁]) d₂
      = (store ++ [rowOfData now₁ d₁], none) := by
    unfold insertSnapshot
    rw [if_pos (by rw [hmem])]
  rw [h1]
  refine ⟨rfl, by rw [h2], by rw [h2], ?_, by rw [h2]; rfl⟩
  rw [h2]
  show ((store ++ [rowOfData now₁ d₁]).filter
    (fun s => hourKey s.collected_at = hourKey (rowOfData now₁ d₁).collected_at)).length = 1
  rw [List.filter_append]
  have hfe : store.filter
      (fun s => hourKey s.collected_at = hourKey (rowOfData now₁ d₁).collected_at)
      = [] := by
    rw [List.filter_eq_nil_iff]
    intro s hs
    simpa using hfresh s hs
  rw [hfe]
  simp

theorem insert_same_hour_idempotent_witness :
    (insertSnapshot 0 []
      { collected_at := some 1000, nav := 5, pnl := none, apr := none, vlm := none,
        allow_deposits := true, nav_ath := 5, drawdown_pct := 0, max_drawdown := 0,
        composite_score := none, dd_score := none, tvl_score := none,
        momentum_score := none, vol_score := none, apr_score := none,
        funding_rate := none, open_interest := none, volume_24h := none,
        funding_score := none, oi_score := none }).2.isSome
    ∧ (insertSnapshot 0 (insertSnapshot 0 []
      { collected_at := some 1000, nav := 5, pnl := none, apr := none, vlm := none,
        allow_deposits := true, nav_ath := 5, drawdown_pct := 0, max_drawdown := 0,
        composite_score := none, dd_score := none, tvl_score := none,
        momentum_score := none, vol_score := none, apr_score := none,
        funding_rate := none, open_interest := none, volume_24h := none,
        funding_score := none, oi_score := none }).1
      { collected_at := some 2000, nav := 6, pnl := none, apr := none, vlm := none,
        allow_deposits := true, nav_ath := 6, drawdown_pct := 0, max_drawdown := 0,
        composite_score := none, dd_score := none, tvl_score := none,
        momentum_score := none, vol_score := none, apr_score := none,
        funding_rate := none, open_interest := none, volume_24h := none,
        funding_score := none, oi_score := none }).2 = none := by
  have h := insert_same_hour_idempotent 0 0 []
    { collected_at := some 1000, nav := 5, pnl := none, apr := none, vlm := none,
      allow_deposits := true, nav_ath := 5, drawdown_pct := 0, max_drawdown := 0,
      composite_score := none, dd_score := none, tvl_score := none,
      momentum_score := none, vol_score := none, apr_score := none,
      funding_rate := none, open_interest := none, volume_24h := none,
      funding_score := none, oi_score := none }
    { collected_at := some 2000, nav := 6, pnl := none, apr := none, vlm := none,
      allow_deposits := true, nav_ath := 6, drawdown_pct := 0, max_drawdown := 0,
      composite_score := none, dd_score := none, tvl_score := none,
      momentum_score := none, vol_score := none, apr_score := none,
      funding_rate := none, open_interest := none, volume_24h := none,
      funding_score := none, oi_score := none }
    (by norm_num [rowOfData, hourKey, msPerHour])
    (by intro s hs; simp at hs)
  exact ⟨by rw [h.1]; rfl, h.2.1⟩

/-- C5: the INSERT column list of `insertSnapshot` omits `funding_rate`,
`open_interest`, `volume_24h`, `funding_score` and `oi_score`, so whatever
market-context values the collect handler put into the snapshot object,
the persisted row carries NULL in all five columns; the write otherwise
either no-ops or appends exactly this row. -/
theorem inserted_row_drops_market_context (now : ℕ) (store : List Row)
    (d : SnapshotData) :
    (rowOfData now d).funding_rate = none
    ∧ (rowOfData now d).open_interest = none
    ∧ (rowOfData now d).volume_24h = none
    ∧ (rowOfData now d).funding_score = none
    ∧ (rowOfData now d).oi_score = none
    ∧ ((insertSnapshot now store d).2 = none
       ∨ (insertSnapshot now store d).2 = some (rowOfData now d)) := by
  refine ⟨rfl, rfl, rfl, rfl, rfl, ?_⟩
  simp only [insertSnapshot]
  split
  · exact Or.inl rfl
  · exact Or.inr rfl

/-- C10: `insertSnapshot` coerces falsy optional numerics to NULL
(`data.vlm || null`, `data.<score> || null`): a snapshot carrying a
legitimate zero for vlm or any of the six score columns is persisted with
NULL there, so a zero-scored snapshot is indistinguishable after writing
from one that was never scored. -/
theorem zero_score_persisted_as_null (now : ℕ) (d : SnapshotData) :
    (rowOfData now { d with vlm := some 0 }).vlm = none
    ∧ (rowOfData now { d with composite_score := some 0 }).composite_score = none
    ∧ (rowOfData now { d with dd_score := some 0 }).dd_score = none
    ∧ (rowOfData now { d with tvl_score := some 0 }).tvl_score = none
    ∧ (rowOfData now { d with momentum_score := some 0 }).momentum_score = none
    ∧ (rowOfData now { d with vol_score := some 0 }).vol_score = none
    ∧ (rowOfData now { d with apr_score := some 0 }).apr_score = none
    ∧ rowOfData now { d with
        vlm := some 0
        composite_score := some 0
        dd_score := some 0
        tvl_score := some 0
        momentum_score := some 0
        vol_score := some 0
        apr_score := some 0 }
      = rowOfData now { d with
        vlm := none
        composite_score := none
        dd_score := none
        tvl_score := none
        momentum_score := none
        vol_score := none
        apr_score := none } := by
  refine ⟨?_, ?_, ?_, ?_, ?_, ?_, ?_, ?_⟩ <;>
    simp [rowOfData, falsyToNullQ, falsyToNullZ]

lemma dedup_length_le_of_sublist {α : Type} [DecidableEq α] {l₁ l₂ : List α}
    (h : List.Sublist l₁ l₂) : l₁.dedup.length ≤ l₂.dedup.length := by
  rw [← List.card_toFinset, ← List.card_toFinset]
  apply Finset.card_le_card
  intro x hx
  rw [List.mem_toFinset] at hx ⊢
  exact h.subset hx

lemma filter_cutoff_sublist (c₁ c₂ : ℕ) (hc : c₂ ≤ c₁) (store : List Row) :
    List.Sublist (store.filter (fun r => c₁ ≤ r.collected_at))
      (store.filter (fun r => c₂ ≤ r.collected_at)) := by
  apply List.monotone_filter_right
  intro r hr
  simp only [decide_eq_true_eq] at hr ⊢
  omega

/-- C9: for a fixed returned resolution (hourly or daily), the number of
rows returned is monotone in the range: `all ≥ 7d ≥ 24h`, because each
shorter range's cutoff filter retains a subset of the longer range's
rows (for hourly, a sublist of the raw rows; for daily, a subset of the
grouped day keys). -/
theorem range_count_monotone (now : ℕ) (store : List Row) (res : Resolution)
    (h : res = Resolution.hourly ∨ res = Resolution.daily) :
    (getSnapshots now store RangeParam.h24 res).count
      ≤ (getSnapshots now store RangeParam.d7 res).count
    ∧ (getSnapshots now store RangeParam.d7 res).count
      ≤ (getSnapshots now store RangeParam.all res).count := by
  have hc : now - 7 * msPerDay ≤ now - 24 * 3600 * 1000 := by
    unfold msPerDay
    omega
  have hsub : List.Sublist
      (store.filter (fun r => now - 24 * 3600 * 1000 ≤ r.collected_at))
      (store.filter (fun r => now - 7 * msPerDay ≤ r.collected_at)) :=
    filter_cutoff_sublist _ _ hc store
  have hsub7 : List.Sublist
      (store.filter (fun r => now - 7 * msPerDay ≤ r.collected_at)) store :=
    List.filter_sublist store
  rcases h with h | h <;> subst h
  · exact ⟨hsub.length_le, hsub7.length_le⟩
  · constructor
    · show (dailyAgg _).length ≤ (dailyAgg _).length
      simp only [dailyAgg, List.length_map]
      exact dedup_length_le_of_sublist (hsub.map _)
    · show (dailyAgg _).length ≤ (dailyAgg _).length
      simp only [dailyAgg, List.length_map]
      exact dedup_length_le_of_sublist (hsub7.map _)

theorem range_count_monotone_witness :
    (getSnapshots 0 [] RangeParam.h24 Resolution.hourly).count
      ≤ (getSnapshots 0 [] RangeParam.d7 Resolution.hourly).count :=
  (range_count_monotone 0 [] Resolution.hourly (Or.inl rfl)).1

lemma le_foldl_max (a : ℚ) (l : List ℚ) : a ≤ l.foldl max a := by
  induction l generalizing a with
  | nil => exact le_refl a
  | cons b t ih => exact le_trans (le_max_left a b) (ih (max a b))

lemma mem_le_foldl_max : ∀ (l : List ℚ) (a x : ℚ), x ∈ l → x ≤ l.foldl max a := by
  intro l
  induction l with
  | nil => intro a x hx; cases hx
  | cons b t ih =>
    intro a x hx
    rcases List.mem_cons.mp hx with h | h
    · subst h
      exact le_trans (le_max_right a x) (le_foldl_max (max a x) t)
    · exact ih (max a b) x h

lemma foldl_max_mem : ∀ (l : List ℚ) (a : ℚ), l.foldl max a = a ∨ l.foldl max a ∈ l := by
  intro l
  induction l with
  | nil => intro a; exact Or.inl rfl
  | cons b t ih =>
    intro a
    rw [List.foldl_cons]
    rcases ih (max a b) with h | h
    · rcases max_choice a b with h2 | h2
      · exact Or.inl (by rw [h, h2])
      · exact Or.inr (by rw [h, h2]; exact List.mem_cons_self b t)
    · exact Or.inr (List.mem_cons_of_mem b h)

lemma foldl_min_le (a : ℚ) (l : List ℚ) : l.foldl min a ≤ a := by
  induction l generalizing a with
  | nil => exact le_refl a
  | cons b t ih => exact le_trans (ih (min a b)) (min_le_left a b)

lemma foldl_min_le_mem : ∀ (l : List ℚ) (a x : ℚ), x ∈ l → l.foldl min a ≤ x := by
  intro l
  induction l with
  | nil => intro a x hx; cases hx
  | cons b t ih =>
    intro a x hx
    rcases List.mem_cons.mp hx with h | h
    · subst h
      exact le_trans (foldl_min_le (min a x) t) (min_le_right a x)
    · exact ih (min a b) x h

lemma foldl_min_mem : ∀ (l : List ℚ) (a : ℚ), l.foldl min a = a ∨ l.foldl min a ∈ l := by
  intro l
  induction l with
  | nil => intro a; exact Or.inl rfl
  | cons b t ih =>
    intro a
    rw [List.foldl_cons]
    rcases ih (min a b) with h | h
    · rcases min_choice a b with h2 | h2
      · exact Or.inl (by rw [h, h2])
      · exact Or.inr (by rw [h, h2]; exact List.mem_cons_self b t)
    · exact Or.inr (List.mem_cons_of_mem b h)

lemma le_qMax {l : List ℚ} {x : ℚ} (hx : x ∈ l) : x ≤ qMax l := by
  cases l with
  | nil => cases hx
  | cons a t =>
    show x ≤ t.foldl max a
    rcases List.mem_cons.mp hx with h | h
    · subst h
      exact le_foldl_max x t
    · exact mem_le_foldl_max t a x h

lemma qMax_mem {l : List ℚ} (h : l ≠ []) : qMax l ∈ l := by
  cases l with
  | nil => exact absurd rfl h
  | cons a t =>
    show t.foldl max a ∈ a :: t
    rcases foldl_max_mem t a with h2 | h2
    · rw [h2]
      exact List.mem_cons_self a t
    · exact List.mem_cons_of_mem a h2

lemma qMin_le {l : List ℚ} {x : ℚ} (hx : x ∈ l) : qMin l ≤ x := by
  cases l with
  | nil => cases hx
  | cons a t =>
    show t.foldl min a ≤ x
    rcases List.mem_cons.mp hx with h | h
    · subst h
      exact foldl_min_le x t
    · exact foldl_min_le_mem t a x h

lemma qMin_mem {l : List ℚ} (h : l ≠ []) : qMin l ∈ l := by
  cases l with
  | nil => exact absurd rfl h
  | cons a t =>
    show t.foldl min a ∈ a :: t
    rcases foldl_min_mem t a with h2 | h2
    · rw [h2]
      exact List.mem_cons_self a t
    · exact List.mem_cons_of_mem a h2

/-- C6 counterexample: two same-day rows with composite scores 50 and 51;
the daily read returns `composite_score = 51` (the average cast to
integer), while the exact average of the day's rows is 101/2 — the score
fields are rounded averages, not averages. -/
theorem daily_score_average_is_rounded :
    (dailyAgg [scoredRow 0 50, scoredRow 3600000 51]).map DailyRow.composite_score
      = [some 51]
    ∧ optAvgZ ([scoredRow 0 50, scoredRow 3600000 51].map Row.composite_score)
      = some (101/2)
    ∧ ((51:ℤ):ℚ) ≠ 101/2 := by
  have hcast : pgCastInt (101/2) = 51 := by
    unfold pgCastInt
    rw [if_pos (by norm_num)]
    have h : (101:ℚ)/2 + 1/2 = ((51:ℤ):ℚ) := by norm_num
    rw [h, Int.floor_intCast]
  have havg : optAvgZ ([scoredRow 0 50, scoredRow 3600000 51].map Row.composite_score)
      = some (101/2) := by
    simp [scoredRow, basicRow, optAvgZ]
  refine ⟨?_, havg, by norm_num⟩
  have hkeys : ([scoredRow 0 50, scoredRow 3600000 51].map
      (fun r => dayKey r.collected_at)).dedup = [0] := by
    norm_num [scoredRow, basicRow, dayKey, msPerDay, List.dedup_cons_of_mem]
  have hfil : [scoredRow 0 50, scoredRow 3600000 51].filter
      (fun r => dayKey r.collected_at = 0) = [scoredRow 0 50, scoredRow 3600000 51] := by
    norm_num [scoredRow, basicRow, dayKey, msPerDay, List.filter]
  rw [dailyAgg, hkeys, List.map_cons, List.map_nil, List.map_cons, List.map_nil, hfil]
  show [(optAvgZ ([scoredRow 0 50, scoredRow 3600000 51].map Row.composite_score)).map
    pgCastInt] = [some 51]
  rw [havg]
  simp [hcast]

/-- C6 amended: the daily read groups by UTC calendar day and returns
exactly one row per day having rows: nav, pnl, apr, vlm and drawdownPct
are the day's averages, allowDeposits the AND, navAth the day's maximum,
maxDrawdown the day's minimum, and each score field is the day's average
rounded to the nearest integer by the `::integer` cast (not the exact
average).  A day with hourly NAVs [100,102,98] yields daily nav 100,
navAth = max of the rows' navAth (102) and maxDrawdown = min of the rows'
maxDrawdown (-2/51). -/
theorem daily_resolution_aggregation :
    (∀ (now : ℕ) (store : List Row),
      getSnapshots now store RangeParam.all Resolution.daily
        = SnapshotsResult.daily (dailyAgg store)
      ∧ getSnapshots now store RangeParam.d30 Resolution.daily
        = SnapshotsResult.daily (dailyAgg (store.filter
            (fun r => now - 30 * msPerDay ≤ r.collected_at))))
    ∧ (∀ rows : List Row,
        ((dailyAgg rows).map DailyRow.collected_at).Nodup
        ∧ (∀ dr ∈ dailyAgg rows, ∃ k,
            dr = aggDay k (rows.filter (fun r => dayKey r.collected_at = k))
            ∧ ∃ r ∈ rows, dayKey r.collected_at = k)
        ∧ (∀ r ∈ rows, ∃ dr ∈ dailyAgg rows,
            dr.collected_at = dayKey r.collected_at * msPerDay))
    ∧ (∀ (k : ℕ) (g : List Row), g ≠ [] →
        (aggDay k g).nav = (g.map Row.nav).sum / (g.map Row.nav).length
        ∧ ((aggDay k g).allow_deposits = true ↔ ∀ r ∈ g, r.allow_deposits = true)
        ∧ (∀ r ∈ g, r.nav_ath ≤ (aggDay k g).nav_ath)
        ∧ (aggDay k g).nav_ath ∈ g.map Row.nav_ath
        ∧ (∀ r ∈ g, (aggDay k g).max_drawdown ≤ r.max_drawdown)
        ∧ (aggDay k g).max_drawdown ∈ g.map Row.max_drawdown
        ∧ (aggDay k g).drawdown_pct
            = (g.map Row.drawdown_pct).sum / (g.map Row.drawdown_pct).length
        ∧ (aggDay k g).composite_score
            = (optAvgZ (g.map Row.composite_score)).map pgCastInt)
    ∧ (dailyAgg [basicRow 0 100, basicRow 3600000 102, ddRow]).map
        (fun d => (d.nav, d.nav_ath, d.max_drawdown)) = [(100, 102, -2/51)] := by
  refine ⟨fun now store => ⟨rfl, rfl⟩, ?_, ?_, ?_⟩
  · intro rows
    refine ⟨?_, ?_, ?_⟩
    · rw [dailyAgg, List.map_map]
      have h : (DailyRow.collected_at ∘ fun k =>
          aggDay k (rows.filter (fun r => dayKey r.collected_at = k)))
          = fun k => k * msPerDay := rfl
      rw [h]
      refine List.Nodup.map ?_ (List.nodup_dedup _)
      intro x y hxy
      have hm : 0 < msPerDay := by norm_num [msPerDay]
      exact Nat.eq_of_mul_eq_mul_right hm hxy
    · intro dr hdr
      rw [dailyAgg] at hdr
      obtain ⟨k, hk, hdr⟩ := List.mem_map.mp hdr
      refine ⟨k, hdr.symm, ?_⟩
      have := List.mem_dedup.mp hk
      obtain ⟨r, hr, hrk⟩ := List.mem_map.mp this
      exact ⟨r, hr, hrk⟩
    · intro r hr
      have hk : dayKey r.collected_at
          ∈ (rows.map (fun r => dayKey r.collected_at)).dedup :=
        List.mem_dedup.mpr (List.mem_map_of_mem _ hr)
      exact ⟨aggDay (dayKey r.collected_at)
        (rows.filter (fun q => dayKey q.collected_at = dayKey r.collected_at)),
        List.mem_map_of_mem _ hk, rfl⟩
  · intro k g hg
    have hgn : g.map Row.nav ≠ [] := by
      intro h
      exact hg (List.map_eq_nil_iff.mp h)
    have hlen : (g.map Row.nav).length ≠ 0 := fun h => hgn (List.length_eq_zero.mp h)
    refine ⟨?_, ?_, ?_, ?_, ?_, ?_, ?_, rfl⟩
    · show listAvg (g.map Row.nav) = _
      rw [listAvg, if_neg hlen]
    · show g.all Row.allow_deposits = true ↔ _
      rw [List.all_eq_true]
    · intro r hr
      exact le_qMax (List.mem_map_of_mem Row.nav_ath hr)
    · exact qMax_mem (fun h => hg (List.map_eq_nil_iff.mp h))
    · intro r hr
      exact qMin_le (List.mem_map_of_mem Row.max_drawdown hr)
    · exact qMin_mem (fun h => hg (List.map_eq_nil_iff.mp h))
    · show listAvg (g.map Row.drawdown_pct) = _
      rw [listAvg, if_neg (fun h => hg (List.map_eq_nil_iff.mp
        (List.length_eq_zero.mp h)))]
  · have hkeys : ([basicRow 0 100, basicRow 3600000 102, ddRow].map
        (fun r => dayKey r.collected_at)).dedup = [0] := by
      norm_num [basicRow, ddRow, dayKey, msPerDay, List.dedup_cons_of_mem]
    have hfil : [basicRow 0 100, basicRow 3600000 102, ddRow].filter
        (fun r => dayKey r.collected_at = 0)
        = [basicRow 0 100, basicRow 3600000 102, ddRow] := by
      norm_num [basicRow, ddRow, dayKey, msPerDay, List.filter]
    rw [dailyAgg, hkeys, List.map_cons, List.map_nil, List.map_cons, List.map_nil, hfil]
    have hnav : listAvg ([basicRow 0 100, basicRow 3600000 102, ddRow].map Row.nav)
        = 100 := by
      norm_num [basicRow, ddRow, listAvg]
    have hath : qMax ([basicRow 0 100, basicRow 3600000 102, ddRow].map Row.nav_ath)
        = 102 := by
      show List.foldl max 100 [102, 102] = 102
      norm_num [List.foldl, max_def]
    have hmdd : qMin ([basicRow 0 100, basicRow 3600000 102, ddRow].map
        Row.max_drawdown) = -2/51 := by
      show List.foldl min 0 [0, -2/51] = -2/51
      norm_num [List.foldl, min_def]
    show [(listAvg ([basicRow 0 100, basicRow 3600000 102, ddRow].map Row.nav),
      qMax ([basicRow 0 100, basicRow 3600000 102, ddRow].map Row.nav_ath),
      qMin ([basicRow 0 100, basicRow 3600000 102, ddRow].map Row.max_drawdown))]
      = [(100, 102, -2/51)]
    rw [hnav, hath, hmdd]

theorem daily_resolution_aggregation_witness :
    (aggDay 0 [basicRow 0 100]).nav
      = ([basicRow 0 100].map Row.nav).sum / ([basicRow 0 100].map Row.nav).length
    ∧ (aggDay 0 [basicRow 0 100]).nav_ath ∈ [basicRow 0 100].map Row.nav_ath := by
  have h := daily_resolution_aggregation.2.2.1 0 [basicRow 0 100] (by simp)
  exact ⟨h.1, h.2.2.2.1⟩

end TimingMarket
